import Mathlib

/-!
Verification of the geospatial hazard-classification pipeline and the
rainfall-threshold alert engine of the landslide early-warning dashboard.

The definitions below are shallow embeddings of the Python source:
* dashboard/app.py      — threshold matrix, alert evaluation, rolling 72 h sums
* dashboard/procesar_raster.py — quantile raster classification, reprojection,
  point sampling

Rainfall amounts, thresholds and raster cell values are modelled as rationals
(the Python floats carry decimal data such as 199.999); grids are flattened to
lists of cell values where the 2-D shape is irrelevant to the property.
-/

/-- One row of the rainfall-threshold matrix (`umbrales_lluvia.csv` columns
`Amenaza_Nivel`, `Umbral_Verde_mm`, `Umbral_Amarillo_mm`, `Umbral_Rojo_mm`). -/
structure UmbralRow where
  nivel : String
  verde : ℚ
  amarillo : ℚ
  rojo : ℚ
deriving DecidableEq, Repr

/-- The default threshold matrix built in `cargar_umbrales` (app.py lines 49-54)
when `umbrales_lluvia.csv` is absent. -/
def umbralesDefault : List UmbralRow :=
  [ { nivel := "Muy Baja", verde := 200, amarillo := 250, rojo := 300 },
    { nivel := "Baja",     verde := 150, amarillo := 200, rojo := 250 },
    { nivel := "Media",    verde := 120, amarillo := 150, rojo := 200 },
    { nivel := "Alta",     verde := 80,  amarillo := 100, rojo := 120 },
    { nivel := "Muy Alta", verde := 60,  amarillo := 80,  rojo := 100 } ]

/-- Embedding of `calcular_nivel_alerta` (app.py lines 97-112).  The pandas
row filter keeps the rows whose `Amenaza_Nivel` equals `amenaza`; `.values[0]`
reads the first such row.  An empty filter result returns the fail-open
`('VERDE', '🟢', 0)` triple. -/
def calcular_nivel_alerta (amenaza : String) (lluvia72h : ℚ)
    (umbrales : List UmbralRow) : String × String × ℕ :=
  match umbrales.filter (fun r => r.nivel == amenaza) with
  | [] => ("VERDE", "🟢", 0)
  | fila :: _ =>
    if fila.rojo ≤ lluvia72h then ("ROJA", "🔴", 3)
    else if fila.amarillo ≤ lluvia72h then ("AMARILLA", "🟡", 2)
    else ("VERDE", "🟢", 1)

/-- Embedding of the inner `calcular_alerta_temporal` (app.py lines 413-426);
the Python closure reads the global `umbrales_df`, passed here explicitly. -/
def calcular_alerta_temporal (umbrales : List UmbralRow) (amenaza : String)
    (lluvia : ℚ) : String :=
  match umbrales.filter (fun r => r.nivel == amenaza) with
  | [] => "VERDE"
  | fila :: _ =>
    if fila.rojo ≤ lluvia then "ROJA"
    else if fila.amarillo ≤ lluvia then "AMARILLA"
    else "VERDE"

/-- Embedding of `df['precipitation'].rolling(window=w, min_periods=1).sum()`:
entry `i` is the sum of the trailing window of at most `w` samples ending at
`i` (pandas semantics of the call at app.py lines 408-410). -/
def rollingSumMin1 (w : ℕ) (s : List ℚ) : List ℚ :=
  (List.range s.length).map fun i => ((s.take (i + 1)).drop (i + 1 - w)).sum

/-- The 72 h accumulated-precipitation series of app.py lines 408-410. -/
def precipAcum72h (s : List ℚ) : List ℚ := rollingSumMin1 72 s

/-- The per-sample alert series (app.py lines 428-430). -/
def nivelesTemporales (umbrales : List UmbralRow) (amenaza : String)
    (s : List ℚ) : List String :=
  (precipAcum72h s).map (calcular_alerta_temporal umbrales amenaza)

/-- Dwell-time counters of app.py lines 607-610: hours spent in each state. -/
def tiempoEnNivel (niveles : List String) (nivel : String) : ℕ :=
  niveles.count nivel

/-- End-to-end rainfall scenario: hourly series constant at 2 mm/hour for the
first 72 hours and 0 mm/hour afterward, `n` samples in total. -/
def lluviaEscenario (n : ℕ) : List ℚ :=
  (List.replicate 72 (2 : ℚ) ++ List.replicate (n - 72) (0 : ℚ)).take n

/-! ### Raster classification (procesar_raster.py) -/

/-- Embedding of the NoData filter `valores_reales = data[data != NoData_value]`
(procesar_raster.py line 28); grids are flattened to a list of cell values. -/
def valores_reales (data : List ℚ) (nd : ℚ) : List ℚ :=
  data.filter (fun v => v != nd)

/-- The floor of NumPy's virtual quantile index `p * (n - 1)`. -/
def quantileIdx (n : ℕ) (p : ℚ) : ℕ := (⌊p * ((n : ℚ) - 1)⌋).toNat

/-- Linear interpolation step of `np.quantile(xs, p)` (NumPy's default
method): with the data sorted ascending, the result interpolates between the
element at the floor of the virtual index and the next element (clamped to
the last index). -/
def quantileLinear (xs : List ℚ) (p : ℚ) : ℚ :=
  (List.insertionSort (fun a b => a ≤ b) xs).getD (quantileIdx xs.length p) 0 +
    (p * ((xs.length : ℚ) - 1) - (quantileIdx xs.length p : ℚ)) *
      ((List.insertionSort (fun a b => a ≤ b) xs).getD
          (min (quantileIdx xs.length p + 1) (xs.length - 1)) 0 -
        (List.insertionSort (fun a b => a ≤ b) xs).getD (quantileIdx xs.length p) 0)

/-- Embedding of `np.quantile(xs, p)`: `none` on an empty data set, where
NumPy raises. -/
def npQuantile (xs : List ℚ) (p : ℚ) : Option ℚ :=
  match xs with
  | [] => none
  | _ :: _ => some (quantileLinear xs p)

/-- Per-cell value of the three sequential NumPy mask assignments of
procesar_raster.py lines 53-56 over an all-zero array: the last matching mask
wins, unmatched cells keep 0. -/
def clasificar_celda (nd tb ta v : ℚ) : ℕ :=
  if ta < v then 3
  else if tb < v ∧ v ≤ ta then 2
  else if nd < v ∧ v ≤ tb then 1
  else 0

/-- Embedding of `clasificar_raster_amenaza` (procesar_raster.py lines 27-69):
quantile thresholds at 0.33 and 0.66 over the non-NoData values, then the
per-cell classification; the classified cells are returned together with the
two boundary values.  `none` models the error `np.quantile` raises when no
non-NoData cell exists. -/
def clasificar_raster_amenaza (data : List ℚ) (nd : ℚ) :
    Option (List ℕ × ℚ × ℚ) :=
  match npQuantile (valores_reales data nd) (33 / 100),
        npQuantile (valores_reales data nd) (66 / 100) with
  | some tb, some ta => some (data.map (clasificar_celda nd tb ta), tb, ta)
  | _, _ => none

/-! ### Point sampling and reprojection -/

/-- A geographic raster grid: dimensions, affine transform (top-left corner
`(x0, y0)`, positive pixel sizes `dx`, `dy` with north-up rows), a cell-code
function and the NoData sentinel. -/
structure GridN where
  nrows : ℕ
  ncols : ℕ
  x0 : ℚ
  y0 : ℚ
  dx : ℚ
  dy : ℚ
  cells : ℕ → ℕ → ℕ
  nodata : ℕ

/-- Modelled from the spec: the raster point lookup `src.sample(coords)` used
by `extraer_valores_torres` (procesar_raster.py lines 139-140) lives in
rasterio, outside this repository's sources.  Per the spec (§4.3), the lookup
is nearest-cell (the cell containing the query point) and a query point
outside the covered extent yields the grid's NoData sentinel instead of
raising. -/
def sample_grid (g : GridN) (lon lat : ℚ) : ℕ :=
  if 0 ≤ ⌊(g.y0 - lat) / g.dy⌋ ∧ ⌊(g.y0 - lat) / g.dy⌋ < (g.nrows : ℤ) ∧
      0 ≤ ⌊(lon - g.x0) / g.dx⌋ ∧ ⌊(lon - g.x0) / g.dx⌋ < (g.ncols : ℤ) then
    g.cells (⌊(g.y0 - lat) / g.dy⌋).toNat (⌊(lon - g.x0) / g.dx⌋).toNat
  else g.nodata

/-- The fixed code-to-label table `mapa_amenaza` of procesar_raster.py line
146; pandas `.map` yields a missing value (`none`) for unlisted codes. -/
def mapa_amenaza (v : ℕ) : Option String :=
  if v = 1 then some "Baja"
  else if v = 2 then some "Media"
  else if v = 3 then some "Alta"
  else if v = 0 then some "Sin Datos"
  else none

/-- Modelled from the spec: `reproject(..., resampling=Resampling.nearest)`
and `calculate_default_transform` (procesar_raster.py lines 85-107) live in
rasterio, outside this repository's sources.  Per the spec (§4.2 and the
glossary), the destination geometry covers the source extent and every
destination cell receives the value of its closest source cell — here the
source cell containing the destination cell's centre, clamped to the source
extent — while the metadata copy `kwargs = src.meta.copy()` keeps the NoData
sentinel unchanged. -/
def reproyectar_raster_wgs84 (src : GridN) (nrows ncols : ℕ)
    (x0 y0 dx dy : ℚ) : GridN where
  nrows := nrows
  ncols := ncols
  x0 := x0
  y0 := y0
  dx := dx
  dy := dy
  nodata := src.nodata
  cells := fun r c =>
    src.cells
      (min (max ⌊(src.y0 - (y0 - ((r : ℚ) + 1 / 2) * dy)) / src.dy⌋ 0)
        ((src.nrows : ℤ) - 1)).toNat
      (min (max ⌊((x0 + ((c : ℚ) + 1 / 2) * dx) - src.x0) / src.dx⌋ 0)
        ((src.ncols : ℤ) - 1)).toNat

set_option maxRecDepth 100000
set_option maxHeartbeats 2000000

/-! ### Lemmas about the alert evaluator -/

lemma calcular_nivel_alerta_of_filter_cons {u : List UmbralRow} {a : String}
    {fila : UmbralRow} {rest : List UmbralRow}
    (h : u.filter (fun r => r.nivel == a) = fila :: rest) (v : ℚ) :
    calcular_nivel_alerta a v u =
      (if fila.rojo ≤ v then ("ROJA", "🔴", 3)
       else if fila.amarillo ≤ v then ("AMARILLA", "🟡", 2)
       else ("VERDE", "🟢", 1)) := by
  unfold calcular_nivel_alerta
  rw [h]

lemma calcular_alerta_temporal_of_filter_cons {u : List UmbralRow} {a : String}
    {fila : UmbralRow} {rest : List UmbralRow}
    (h : u.filter (fun r => r.nivel == a) = fila :: rest) (v : ℚ) :
    calcular_alerta_temporal u a v =
      (if fila.rojo ≤ v then "ROJA"
       else if fila.amarillo ≤ v then "AMARILLA"
       else "VERDE") := by
  unfold calcular_alerta_temporal
  rw [h]

/-- C1: for a hazard level present in the matrix (`fila` being the row the
pandas lookup reads), the scalar alert evaluation checks thresholds in
strictly descending order — RED if `v ≥ rojo`, else YELLOW if `v ≥ amarillo`,
else GREEN; for arbitrary row values (malformed rows included) a value at or
above both boundaries resolves to RED; and on the default matrix the `Media`
row maps 200 to RED, 199.999 to YELLOW and 149.999 to GREEN. -/
theorem C1_descending_threshold_order :
    (∀ (u : List UmbralRow) (a : String) (fila : UmbralRow) (rest : List UmbralRow) (v : ℚ),
        u.filter (fun r => r.nivel == a) = fila :: rest →
        calcular_nivel_alerta a v u =
          (if fila.rojo ≤ v then ("ROJA", "🔴", 3)
           else if fila.amarillo ≤ v then ("AMARILLA", "🟡", 2)
           else ("VERDE", "🟢", 1)) ∧
        calcular_alerta_temporal u a v =
          (if fila.rojo ≤ v then "ROJA"
           else if fila.amarillo ≤ v then "AMARILLA"
           else "VERDE") ∧
        (fila.amarillo ≤ v → fila.rojo ≤ v →
          (calcular_nivel_alerta a v u).1 = "ROJA" ∧
          calcular_alerta_temporal u a v = "ROJA")) ∧
    (calcular_nivel_alerta "Media" 200 umbralesDefault).1 = "ROJA" ∧
    (calcular_nivel_alerta "Media" (199999 / 1000 : ℚ) umbralesDefault).1 = "AMARILLA" ∧
    (calcular_nivel_alerta "Media" (149999 / 1000 : ℚ) umbralesDefault).1 = "VERDE" ∧
    calcular_alerta_temporal umbralesDefault "Media" 200 = "ROJA" := by
  refine ⟨fun u a fila rest v h => ⟨?_, ?_, ?_⟩, ?_, ?_, ?_, ?_⟩
  · exact calcular_nivel_alerta_of_filter_cons h v
  · exact calcular_alerta_temporal_of_filter_cons h v
  · intro _ hrojo
    rw [calcular_nivel_alerta_of_filter_cons h v,
      calcular_alerta_temporal_of_filter_cons h v, if_pos hrojo, if_pos hrojo]
    exact ⟨rfl, rfl⟩
  · with_unfolding_all decide
  · with_unfolding_all decide
  · with_unfolding_all decide
  · with_unfolding_all decide

/-- Witness for C1: instantiating the general part on the default matrix and
the `Media` row at 175 mm yields the YELLOW triple. -/
theorem C1_descending_threshold_order_witness :
    calcular_nivel_alerta "Media" 175 umbralesDefault = ("AMARILLA", "🟡", 2) := by
  have h := (C1_descending_threshold_order.1 umbralesDefault "Media"
      { nivel := "Media", verde := 120, amarillo := 150, rojo := 200 } [] 175
      (by with_unfolding_all decide)).1
  rw [h]
  with_unfolding_all decide

/-- C7: a hazard level absent from the threshold matrix (empty pandas filter)
is evaluated fail-open to GREEN for every rainfall value, with no failure. -/
theorem C7_unknown_nivel_fail_open (u : List UmbralRow) (a : String) (v : ℚ)
    (h : u.filter (fun r => r.nivel == a) = []) :
    calcular_nivel_alerta a v u = ("VERDE", "🟢", 0) ∧
    calcular_alerta_temporal u a v = "VERDE" := by
  constructor
  · unfold calcular_nivel_alerta
    rw [h]
  · unfold calcular_alerta_temporal
    rw [h]

/-- Witness for C7: the level name `Critica` is absent from the default
matrix, and evaluation at 5000 mm still returns GREEN. -/
theorem C7_unknown_nivel_fail_open_witness :
    calcular_nivel_alerta "Critica" 5000 umbralesDefault = ("VERDE", "🟢", 0) ∧
    calcular_alerta_temporal umbralesDefault "Critica" 5000 = "VERDE" :=
  C7_unknown_nivel_fail_open umbralesDefault "Critica" 5000 (by with_unfolding_all decide)

/-- C10: the green boundary is never read by the evaluator — two matrices
whose rows matching the level agree on the yellow and red boundaries produce
identical alert results, whatever their `Umbral_Verde_mm` columns hold. -/
theorem C10_verde_column_noninterference (a : String) (v : ℚ) (u1 u2 : List UmbralRow)
    (h : (u1.filter (fun r => r.nivel == a)).map (fun r => (r.amarillo, r.rojo))
       = (u2.filter (fun r => r.nivel == a)).map (fun r => (r.amarillo, r.rojo))) :
    calcular_nivel_alerta a v u1 = calcular_nivel_alerta a v u2 ∧
    calcular_alerta_temporal u1 a v = calcular_alerta_temporal u2 a v := by
  rcases h1 : u1.filter (fun r => r.nivel == a) with _ | ⟨f1, r1⟩ <;>
    rcases h2 : u2.filter (fun r => r.nivel == a) with _ | ⟨f2, r2⟩ <;>
    rw [h1, h2] at h <;> simp only [List.map_nil, List.map_cons, List.cons.injEq,
      Prod.mk.injEq, reduceCtorEq] at h
  · unfold calcular_nivel_alerta calcular_alerta_temporal
    rw [h1, h2]
    exact ⟨rfl, rfl⟩
  · obtain ⟨⟨ham, hro⟩, -⟩ := h
    rw [calcular_nivel_alerta_of_filter_cons h1 v,
      calcular_nivel_alerta_of_filter_cons h2 v,
      calcular_alerta_temporal_of_filter_cons h1 v,
      calcular_alerta_temporal_of_filter_cons h2 v, ham, hro]
    exact ⟨rfl, rfl⟩

/-- Witness for C10: two single-row matrices for `Alta` that differ only in
the green boundary (80 versus 9999) evaluate 110 mm identically. -/
theorem C10_verde_column_noninterference_witness :
    calcular_nivel_alerta "Alta" 110
        [{ nivel := "Alta", verde := 80, amarillo := 100, rojo := 120 }] =
      calcular_nivel_alerta "Alta" 110
        [{ nivel := "Alta", verde := 9999, amarillo := 100, rojo := 120 }] :=
  (C10_verde_column_noninterference "Alta" 110
    [{ nivel := "Alta", verde := 80, amarillo := 100, rojo := 120 }]
    [{ nivel := "Alta", verde := 9999, amarillo := 100, rojo := 120 }]
    (by with_unfolding_all decide)).1

/-- C4: the accumulated series has the length of the input series and entry
`i` sums the trailing window of the `min (i+1) 72` most recent samples, the
window starting at index `i + 1 - 72` (natural subtraction, i.e.
`max 0 (i - 71)`); no error and no left padding for the first 71 entries.
On 100 hourly samples of 1.0 mm, entries 0..70 equal `index + 1` and entries
71..99 equal 72. -/
theorem C4_rolling_window :
    (∀ (s : List ℚ) (i : ℕ), i < s.length →
        (precipAcum72h s).length = s.length ∧
        (precipAcum72h s).getD i 0 = ((s.drop (i + 1 - 72)).take (min (i + 1) 72)).sum) ∧
    precipAcum72h (List.replicate 100 (1 : ℚ)) =
      (List.range 100).map (fun i => if i < 72 then ((i + 1 : ℕ) : ℚ) else 72) := by
  constructor
  · intro s i hi
    have hlen : (precipAcum72h s).length = s.length := by
      simp [precipAcum72h, rollingSumMin1]
    refine ⟨hlen, ?_⟩
    have hmin : i + 1 - (i + 1 - 72) = min (i + 1) 72 := by omega
    simp only [precipAcum72h, rollingSumMin1]
    rw [List.getD_eq_getElem _ _ (by simpa using hi), List.getElem_map,
      List.getElem_range, List.drop_take, hmin]
  · with_unfolding_all decide

/-- Witness for C4: the general window characterization instantiated on the
100-sample constant series at the last index. -/
theorem C4_rolling_window_witness :
    (precipAcum72h (List.replicate 100 (1 : ℚ))).getD 99 0 =
      (((List.replicate 100 (1 : ℚ)).drop (99 + 1 - 72)).take (min (99 + 1) 72)).sum :=
  (C4_rolling_window.1 (List.replicate 100 (1 : ℚ)) 99 (by simp)).2

/-- C3 counterexample: in the 2 mm/hour-for-72-hours scenario over hazard
`Alta`, the accumulated value at hour index 72 is 142 mm, not 144 mm (the
oldest 2 mm sample has left the full 72-sample window), and the first 49
hourly samples evaluate GREEN, so the GREEN dwell count is 49, not 0. -/
theorem C3_counterexample :
    (precipAcum72h (lluviaEscenario 73)).getD 72 0 = 142 ∧
    tiempoEnNivel (nivelesTemporales umbralesDefault "Alta" (lluviaEscenario 73)) "VERDE"
      = 49 := by
  with_unfolding_all decide

/-- C3 amended: over a 168-hour horizon of the scenario, the accumulated
series rises by 2 mm/hour to 144 mm at hour 72 (index 71) and then falls by
2 mm/hour as the constant samples leave the sliding window (value
`2 * (143 - i)` from index 72 on, reaching 0 at index 143); the alert crosses
to YELLOW at the 50th hour (index 49), to RED at the 60th hour (index 59),
drops back to YELLOW at index 84 and to GREEN at index 94; the dwell-time
statistics report 123 GREEN, 20 YELLOW and 25 RED hours — GREEN is nonzero
(the ramp-up and the tail), not 0%. -/
theorem C3_amended_scenario :
    precipAcum72h (lluviaEscenario 168) =
      (List.range 168).map
        (fun i => if i < 72 then ((2 * (i + 1) : ℕ) : ℚ) else ((2 * (143 - i) : ℕ) : ℚ)) ∧
    (nivelesTemporales umbralesDefault "Alta" (lluviaEscenario 168)).getD 48 "" = "VERDE" ∧
    (nivelesTemporales umbralesDefault "Alta" (lluviaEscenario 168)).getD 49 "" = "AMARILLA" ∧
    (nivelesTemporales umbralesDefault "Alta" (lluviaEscenario 168)).getD 58 "" = "AMARILLA" ∧
    (nivelesTemporales umbralesDefault "Alta" (lluviaEscenario 168)).getD 59 "" = "ROJA" ∧
    (nivelesTemporales umbralesDefault "Alta" (lluviaEscenario 168)).getD 83 "" = "ROJA" ∧
    (nivelesTemporales umbralesDefault "Alta" (lluviaEscenario 168)).getD 84 "" = "AMARILLA" ∧
    (nivelesTemporales umbralesDefault "Alta" (lluviaEscenario 168)).getD 93 "" = "AMARILLA" ∧
    (nivelesTemporales umbralesDefault "Alta" (lluviaEscenario 168)).getD 94 "" = "VERDE" ∧
    tiempoEnNivel (nivelesTemporales umbralesDefault "Alta" (lluviaEscenario 168)) "VERDE"
      = 123 ∧
    tiempoEnNivel (nivelesTemporales umbralesDefault "Alta" (lluviaEscenario 168)) "AMARILLA"
      = 20 ∧
    tiempoEnNivel (nivelesTemporales umbralesDefault "Alta" (lluviaEscenario 168)) "ROJA"
      = 25 := by
  with_unfolding_all decide

/-- C6: classifying a grid with no non-NoData cell fails (the percentile is
undefined); no classified grid and no default thresholds are produced. -/
theorem C6_empty_distribution_error (data : List ℚ) (nd : ℚ)
    (h : ∀ v ∈ data, v = nd) :
    clasificar_raster_amenaza data nd = none := by
  have hfilter : valores_reales data nd = [] := by
    rw [valores_reales, List.filter_eq_nil_iff]
    intro v hv
    simp [h v hv]
  unfold clasificar_raster_amenaza
  rw [hfilter]
  rfl

/-- Witness for C6: an all-NoData two-cell grid is rejected. -/
theorem C6_empty_distribution_error_witness :
    clasificar_raster_amenaza [7, 7] 7 = none :=
  C6_empty_distribution_error [7, 7] 7 (by decide)

/-- C2 counterexample: with NoData sentinel 100 and cells `[100, 1, 2, 3]`
(sentinel above the data), the quantile thresholds are 83/50 and 58/25 and
the output is `[3, 0, 2, 3]`: the NoData cell receives code 3, not 0, and
the non-NoData cell holding 1 receives code 0 — refuting both halves of the
claim for an arbitrary sentinel. -/
theorem C2_counterexample :
    clasificar_raster_amenaza [100, 1, 2, 3] 100 =
      some ([3, 0, 2, 3], 83 / 50, 58 / 25) := by
  with_unfolding_all decide

/-- C5 counterexample: on the constant grid `[5, 5, 5]` (sentinel −9999) both
quantile thresholds equal 5, and a cell whose value equals the high cutoff is
classified 1 (Low), not 2 (Medium): the Medium band collapses when
`lowCut = highCut`. -/
theorem C5_counterexample :
    clasificar_raster_amenaza [5, 5, 5] (-9999) = some ([1, 1, 1], 5, 5) := by
  with_unfolding_all decide

/-! ### Quantile and classification lemmas -/

lemma npQuantile_some {xs : List ℚ} (hne : xs ≠ []) (p : ℚ) :
    npQuantile xs p = some (quantileLinear xs p) := by
  cases xs with
  | nil => exact absurd rfl hne
  | cons x rest => rfl

lemma sorted_getD_le (s : List ℚ) (hs : s.Sorted (· ≤ ·)) {i j : ℕ}
    (hij : i ≤ j) (hj : j < s.length) : s.getD i 0 ≤ s.getD j 0 := by
  have hi : i < s.length := lt_of_le_of_lt hij hj
  rw [List.getD_eq_getElem _ _ hi, List.getD_eq_getElem _ _ hj]
  rcases eq_or_lt_of_le hij with rfl | hlt
  · exact le_refl _
  · simpa using List.Sorted.rel_get_of_lt hs
      (show (⟨i, hi⟩ : Fin s.length) < ⟨j, hj⟩ from hlt)

lemma quantileIdx_facts (n : ℕ) (p : ℚ) (hn : 1 ≤ n) (hp0 : 0 ≤ p) (hp1 : p ≤ 1) :
    quantileIdx n p ≤ n - 1 ∧
    (quantileIdx n p : ℚ) ≤ p * ((n : ℚ) - 1) ∧
    p * ((n : ℚ) - 1) < (quantileIdx n p : ℚ) + 1 := by
  have hn1 : (0 : ℚ) ≤ (n : ℚ) - 1 := by
    have : (1 : ℚ) ≤ (n : ℚ) := by exact_mod_cast hn
    linarith
  have hh0 : 0 ≤ p * ((n : ℚ) - 1) := mul_nonneg hp0 hn1
  have hfl0 : 0 ≤ ⌊p * ((n : ℚ) - 1)⌋ := Int.floor_nonneg.mpr hh0
  have hcast : ((quantileIdx n p : ℕ) : ℤ) = ⌊p * ((n : ℚ) - 1)⌋ :=
    Int.toNat_of_nonneg hfl0
  have hcastQ : ((quantileIdx n p : ℕ) : ℚ) = ((⌊p * ((n : ℚ) - 1)⌋ : ℤ) : ℚ) := by
    exact_mod_cast hcast
  have hhle : p * ((n : ℚ) - 1) ≤ (n : ℚ) - 1 := by
    calc p * ((n : ℚ) - 1) ≤ 1 * ((n : ℚ) - 1) := mul_le_mul_of_nonneg_right hp1 hn1
    _ = (n : ℚ) - 1 := one_mul _
  have hfl_le : ⌊p * ((n : ℚ) - 1)⌋ ≤ (n : ℤ) - 1 := by
    have h1 : ⌊p * ((n : ℚ) - 1)⌋ ≤ ⌊((n : ℚ) - 1)⌋ := Int.floor_le_floor hhle
    have h2 : ⌊((n : ℚ) - 1)⌋ = (n : ℤ) - 1 := by
      rw [show ((n : ℚ) - 1) = (((n : ℤ) - 1 : ℤ) : ℚ) by push_cast; ring,
        Int.floor_intCast]
    omega
  refine ⟨by omega, ?_, ?_⟩
  · rw [hcastQ]; exact Int.floor_le _
  · rw [hcastQ]; exact Int.lt_floor_add_one _

lemma quantileLinear_lt_of_forall_lt {xs : List ℚ} {p b : ℚ}
    (hne : xs ≠ []) (hp0 : 0 ≤ p) (hp1 : p ≤ 1)
    (hb : ∀ v ∈ xs, b < v) : b < quantileLinear xs p := by
  have hn : 1 ≤ xs.length := List.length_pos.mpr hne
  obtain ⟨hile, hfr0, hfr1⟩ := quantileIdx_facts xs.length p hn hp0 hp1
  set s := List.insertionSort (fun a b => a ≤ b) xs with hs_def
  have hslen : s.length = xs.length := (List.perm_insertionSort _ _).length_eq
  have hmem : ∀ k, k < xs.length → b < s.getD k 0 := by
    intro k hk
    have hk' : k < s.length := by omega
    rw [List.getD_eq_getElem _ _ hk']
    exact hb _ ((List.mem_insertionSort _).mp (List.getElem_mem _))
  set i := quantileIdx xs.length p with hi_def
  have hlo := hmem i (by omega)
  have hhi := hmem (min (i + 1) (xs.length - 1)) (by omega)
  unfold quantileLinear
  rw [← hs_def, ← hi_def]
  set f := p * ((xs.length : ℚ) - 1) - (i : ℚ) with hf_def
  set lo := s.getD i 0 with hlo_def
  set hi := s.getD (min (i + 1) (xs.length - 1)) 0 with hhi_def
  have hf0 : 0 ≤ f := by rw [hf_def]; linarith
  have hf1 : f < 1 := by rw [hf_def]; linarith
  have e1 : 0 < (1 - f) * (lo - b) := mul_pos (by linarith) (by linarith)
  have e2 : 0 ≤ f * (hi - b) := mul_nonneg hf0 (by linarith)
  have key : lo + f * (hi - lo) - b = (1 - f) * (lo - b) + f * (hi - b) := by ring
  linarith

lemma quantileLinear_mono {xs : List ℚ} {p1 p2 : ℚ}
    (hne : xs ≠ []) (hp0 : 0 ≤ p1) (hp12 : p1 ≤ p2) (hp1 : p2 ≤ 1) :
    quantileLinear xs p1 ≤ quantileLinear xs p2 := by
  have hn : 1 ≤ xs.length := List.length_pos.mpr hne
  have hp20 : 0 ≤ p2 := le_trans hp0 hp12
  have hp11 : p1 ≤ 1 := le_trans hp12 hp1
  obtain ⟨hile1, hfr10, hfr11⟩ := quantileIdx_facts xs.length p1 hn hp0 hp11
  obtain ⟨hile2, hfr20, hfr21⟩ := quantileIdx_facts xs.length p2 hn hp20 hp1
  set s := List.insertionSort (fun a b => a ≤ b) xs with hs_def
  have hslen : s.length = xs.length := (List.perm_insertionSort _ _).length_eq
  have hsorted : s.Sorted (· ≤ ·) := List.sorted_insertionSort _ _
  set i1 := quantileIdx xs.length p1 with hi1_def
  set i2 := quantileIdx xs.length p2 with hi2_def
  have hq : (1 : ℚ) ≤ (xs.length : ℚ) := by exact_mod_cast hn
  have h12 : p1 * ((xs.length : ℚ) - 1) ≤ p2 * ((xs.length : ℚ) - 1) :=
    mul_le_mul_of_nonneg_right hp12 (by linarith)
  have hi12 : i1 ≤ i2 := by
    have hq2 : (i1 : ℚ) < (i2 : ℚ) + 1 := lt_of_le_of_lt (le_trans hfr10 h12) hfr21
    have : i1 < i2 + 1 := by exact_mod_cast hq2
    omega
  unfold quantileLinear
  rw [← hs_def, ← hi1_def, ← hi2_def]
  set f1 := p1 * ((xs.length : ℚ) - 1) - (i1 : ℚ) with hf1_def
  set f2 := p2 * ((xs.length : ℚ) - 1) - (i2 : ℚ) with hf2_def
  set lo1 := s.getD i1 0 with hlo1_def
  set hi1 := s.getD (min (i1 + 1) (xs.length - 1)) 0 with hhi1_def
  set lo2 := s.getD i2 0 with hlo2_def
  set hi2 := s.getD (min (i2 + 1) (xs.length - 1)) 0 with hhi2_def
  have hb1 : lo1 ≤ hi1 := sorted_getD_le s hsorted (by omega) (by omega)
  have hb2 : lo2 ≤ hi2 := sorted_getD_le s hsorted (by omega) (by omega)
  have hf10 : 0 ≤ f1 := by rw [hf1_def]; linarith
  have hf11 : f1 < 1 := by rw [hf1_def]; linarith
  have hf20 : 0 ≤ f2 := by rw [hf2_def]; linarith
  have hf21 : f2 < 1 := by rw [hf2_def]; linarith
  rcases eq_or_lt_of_le hi12 with heq | hlt
  · have hlo : lo1 = lo2 := by rw [hlo1_def, hlo2_def, heq]
    have hhi : hi1 = hi2 := by rw [hhi1_def, hhi2_def, heq]
    have hff : f1 ≤ f2 := by rw [hf1_def, hf2_def, heq]; linarith
    have e : 0 ≤ (f2 - f1) * (hi2 - lo2) := mul_nonneg (by linarith) (by linarith)
    have key : lo2 + f2 * (hi2 - lo2) - (lo2 + f1 * (hi2 - lo2))
        = (f2 - f1) * (hi2 - lo2) := by ring
    rw [hlo, hhi]
    linarith
  · have hmid : hi1 ≤ lo2 := sorted_getD_le s hsorted (by omega) (by omega)
    have e1 : 0 ≤ (1 - f1) * (hi1 - lo1) := mul_nonneg (by linarith) (by linarith)
    have e2 : 0 ≤ f2 * (hi2 - lo2) := mul_nonneg hf20 (by linarith)
    have key1 : hi1 - (lo1 + f1 * (hi1 - lo1)) = (1 - f1) * (hi1 - lo1) := by ring
    have key2 : lo2 + f2 * (hi2 - lo2) - lo2 = f2 * (hi2 - lo2) := by ring
    linarith

lemma mem_valores_reales {data : List ℚ} {nd v : ℚ} :
    v ∈ valores_reales data nd ↔ v ∈ data ∧ v ≠ nd := by
  simp [valores_reales, List.mem_filter, bne_iff_ne]

lemma clasificar_celda_le_three (nd tb ta v : ℚ) : clasificar_celda nd tb ta v ≤ 3 := by
  unfold clasificar_celda
  split_ifs <;> omega

lemma clasificar_celda_nd {nd tb ta : ℚ} (h1 : nd ≤ tb) (h2 : nd ≤ ta) :
    clasificar_celda nd tb ta nd = 0 := by
  unfold clasificar_celda
  split_ifs with ha hb hc
  · exact absurd ha (not_lt.mpr h2)
  · exact absurd hb.1 (not_lt.mpr h1)
  · exact absurd hc.1 (lt_irrefl nd)
  · rfl

lemma clasificar_celda_pos {nd tb ta v : ℚ} (h : nd < v) :
    clasificar_celda nd tb ta v = 1 ∨ clasificar_celda nd tb ta v = 2 ∨
    clasificar_celda nd tb ta v = 3 := by
  unfold clasificar_celda
  split_ifs with ha hb hc
  · exact Or.inr (Or.inr rfl)
  · exact Or.inr (Or.inl rfl)
  · exact Or.inl rfl
  · exfalso
    have hta : v ≤ ta := not_lt.mp ha
    have htb : v ≤ tb := not_lt.mp (fun hgt => hb ⟨hgt, hta⟩)
    exact hc ⟨h, htb⟩

lemma clasificar_celda_at_tb {nd tb ta : ℚ} (h1 : nd < tb) (h2 : tb ≤ ta) :
    clasificar_celda nd tb ta tb = 1 := by
  unfold clasificar_celda
  split_ifs with ha hb hc
  · exact absurd ha (not_lt.mpr h2)
  · exact absurd hb.1 (lt_irrefl tb)
  · rfl
  · exact absurd ⟨h1, le_refl tb⟩ hc

lemma clasificar_celda_at_ta {nd tb ta : ℚ} (h1 : nd < ta) :
    (tb < ta → clasificar_celda nd tb ta ta = 2) ∧
    (clasificar_celda nd tb ta ta = 1 ∨ clasificar_celda nd tb ta ta = 2) := by
  unfold clasificar_celda
  split_ifs with ha hb hc
  · exact absurd ha (lt_irrefl ta)
  · exact ⟨fun _ => rfl, Or.inr rfl⟩
  · exact ⟨fun hlt => absurd ⟨hlt, le_refl ta⟩ hb, Or.inl rfl⟩
  · exfalso
    have htb : ta ≤ tb := not_lt.mp (fun hgt => hb ⟨hgt, le_refl ta⟩)
    exact hc ⟨h1, htb⟩

lemma count_classes_eq_length (l : List ℕ) (h : ∀ x ∈ l, x ≤ 3) :
    l.count 1 + l.count 2 + l.count 3 + l.count 0 = l.length := by
  induction l with
  | nil => simp
  | cons x xs ih =>
    have hx : x ≤ 3 := h x (List.mem_cons_self x xs)
    have ih2 := ih fun y hy => h y (List.mem_cons_of_mem x hy)
    simp only [List.count_cons, List.length_cons, beq_iff_eq]
    interval_cases x <;> simp <;> omega

/-- C2 amended: when the NoData sentinel lies strictly below every non-NoData
cell value (the usual convention, e.g. −9999) and at least one non-NoData
cell exists, classification succeeds, every NoData cell maps to 0, every
non-NoData cell to exactly one of {1, 2, 3}, and the four class counts sum to
the total cell count.  (The unamended claim fails for sentinels above the
data, see the counterexample.) -/
theorem C2_amended_classification_total (data : List ℚ) (nd : ℚ)
    (hne : ∃ v ∈ data, v ≠ nd)
    (hlt : ∀ v ∈ data, v ≠ nd → nd < v) :
    ∃ out tb ta, clasificar_raster_amenaza data nd = some (out, tb, ta) ∧
      out.length = data.length ∧
      (∀ j, (hj : j < data.length) →
        (data[j] = nd → out.getD j 0 = 0) ∧
        (data[j] ≠ nd → out.getD j 0 = 1 ∨ out.getD j 0 = 2 ∨ out.getD j 0 = 3)) ∧
      out.count 1 + out.count 2 + out.count 3 + out.count 0 = data.length := by
  obtain ⟨w, hw, hwne⟩ := hne
  have hvr_ne : valores_reales data nd ≠ [] :=
    List.ne_nil_of_mem (mem_valores_reales.mpr ⟨hw, hwne⟩)
  have hball : ∀ v ∈ valores_reales data nd, nd < v := by
    intro v hv
    obtain ⟨h1, h2⟩ := mem_valores_reales.mp hv
    exact hlt v h1 h2
  have htb : nd < quantileLinear (valores_reales data nd) (33 / 100) :=
    quantileLinear_lt_of_forall_lt hvr_ne (by norm_num) (by norm_num) hball
  have hta : nd < quantileLinear (valores_reales data nd) (66 / 100) :=
    quantileLinear_lt_of_forall_lt hvr_ne (by norm_num) (by norm_num) hball
  set tb := quantileLinear (valores_reales data nd) (33 / 100) with htb_def
  set ta := quantileLinear (valores_reales data nd) (66 / 100) with hta_def
  have hcl : clasificar_raster_amenaza data nd =
      some (data.map (clasificar_celda nd tb ta), tb, ta) := by
    unfold clasificar_raster_amenaza
    rw [npQuantile_some hvr_ne, npQuantile_some hvr_ne]
  refine ⟨data.map (clasificar_celda nd tb ta), tb, ta, hcl, by simp, ?_, ?_⟩
  · intro j hj
    have hjm : j < (data.map (clasificar_celda nd tb ta)).length := by simp [hj]
    rw [List.getD_eq_getElem _ _ hjm, List.getElem_map]
    constructor
    · intro hnd
      rw [hnd]
      exact clasificar_celda_nd htb.le hta.le
    · intro hnd
      exact clasificar_celda_pos (hlt _ (List.getElem_mem _) hnd)
  · have hall : ∀ x ∈ data.map (clasificar_celda nd tb ta), x ≤ 3 := by
      intro x hx
      obtain ⟨v, hv, rfl⟩ := List.mem_map.mp hx
      exact clasificar_celda_le_three nd tb ta v
    simpa using count_classes_eq_length _ hall

/-- Witness for C2 amended: the grid `[-1, 5, 10]` with sentinel −9999. -/
theorem C2_amended_classification_total_witness :
    ∃ out tb ta,
      clasificar_raster_amenaza [-1, 5, 10] (-9999) = some (out, tb, ta) ∧
      out.length = ([-1, 5, 10] : List ℚ).length ∧
      (∀ j, (hj : j < ([-1, 5, 10] : List ℚ).length) →
        (([-1, 5, 10] : List ℚ)[j] = -9999 → out.getD j 0 = 0) ∧
        (([-1, 5, 10] : List ℚ)[j] ≠ -9999 →
          out.getD j 0 = 1 ∨ out.getD j 0 = 2 ∨ out.getD j 0 = 3)) ∧
      out.count 1 + out.count 2 + out.count 3 + out.count 0
        = ([-1, 5, 10] : List ℚ).length :=
  C2_amended_classification_total [-1, 5, 10] (-9999)
    (by with_unfolding_all decide) (by with_unfolding_all decide)

/-- C5 amended: given a successful classification, a cell equal to the low
cutoff (above the sentinel) is Low (1), never Medium; a cell equal to the
high cutoff is Medium (2) whenever `lowCut < highCut`, and in the collapsed
case `lowCut = highCut` it is Low — in either case never High (3). -/
theorem C5_amended_boundary_inclusivity (data : List ℚ) (nd : ℚ)
    (out : List ℕ) (tb ta : ℚ) (j : ℕ)
    (hc : clasificar_raster_amenaza data nd = some (out, tb, ta))
    (hj : j < data.length) :
    (data[j] = tb → nd < tb → out.getD j 0 = 1) ∧
    (data[j] = ta → nd < ta →
      (tb < ta → out.getD j 0 = 2) ∧
      (out.getD j 0 = 1 ∨ out.getD j 0 = 2)) := by
  have hvr : valores_reales data nd ≠ [] := by
    intro hnil
    unfold clasificar_raster_amenaza at hc
    rw [hnil] at hc
    simp [npQuantile] at hc
  unfold clasificar_raster_amenaza at hc
  rw [npQuantile_some hvr, npQuantile_some hvr, Option.some.injEq,
    Prod.mk.injEq, Prod.mk.injEq] at hc
  obtain ⟨hout, htb_eq, hta_eq⟩ := hc
  have htbta : tb ≤ ta := by
    rw [← htb_eq, ← hta_eq]
    exact quantileLinear_mono hvr (by norm_num) (by norm_num) (by norm_num)
  have hjm : j < out.length := by rw [← hout]; simp [hj]
  have hget : out.getD j 0 = clasificar_celda nd
      (quantileLinear (valores_reales data nd) (33 / 100))
      (quantileLinear (valores_reales data nd) (66 / 100)) data[j] := by
    rw [List.getD_eq_getElem _ _ hjm]
    subst hout
    rw [List.getElem_map]
  rw [htb_eq, hta_eq] at hget
  constructor
  · intro hv hnd
    rw [hget, hv]
    exact clasificar_celda_at_tb hnd htbta
  · intro hv hnd
    rw [hget, hv]
    exact clasificar_celda_at_ta hnd

/-- Witness for C5 amended: the constant grid `[5, 5, 5]` with sentinel 0,
whose cutoffs coincide at 5, instantiated at cell 0. -/
theorem C5_amended_boundary_inclusivity_witness :
    (([5, 5, 5] : List ℚ)[0] = 5 → (0 : ℚ) < 5 → ([1, 1, 1] : List ℕ).getD 0 0 = 1) ∧
    (([5, 5, 5] : List ℚ)[0] = 5 → (0 : ℚ) < 5 →
      ((5 : ℚ) < 5 → ([1, 1, 1] : List ℕ).getD 0 0 = 2) ∧
      (([1, 1, 1] : List ℕ).getD 0 0 = 1 ∨ ([1, 1, 1] : List ℕ).getD 0 0 = 2)) :=
  C5_amended_boundary_inclusivity [5, 5, 5] 0 [1, 1, 1] 5 5 0
    (by with_unfolding_all decide) (by decide)

/-- C8: a query point outside the grid's covered extent samples to the NoData
sentinel — for the classified rasters this sentinel is 0 (procesar_raster.py
line 62), which the fixed table labels `Sin Datos` — and no exception is
possible (the sampler is a total function). -/
theorem C8_out_of_extent_sin_datos (g : GridN) (lon lat : ℚ)
    (hdx : 0 < g.dx) (hdy : 0 < g.dy) (hnd : g.nodata = 0)
    (hout : lon < g.x0 ∨ g.x0 + (g.ncols : ℚ) * g.dx ≤ lon ∨
            g.y0 < lat ∨ lat ≤ g.y0 - (g.nrows : ℚ) * g.dy) :
    sample_grid g lon lat = g.nodata ∧
    mapa_amenaza (sample_grid g lon lat) = some "Sin Datos" := by
  have hcond : ¬ (0 ≤ ⌊(g.y0 - lat) / g.dy⌋ ∧ ⌊(g.y0 - lat) / g.dy⌋ < (g.nrows : ℤ) ∧
      0 ≤ ⌊(lon - g.x0) / g.dx⌋ ∧ ⌊(lon - g.x0) / g.dx⌋ < (g.ncols : ℤ)) := by
    rcases hout with h | h | h | h
    · rintro ⟨-, -, hc0, -⟩
      have hneg : (lon - g.x0) / g.dx < 0 := div_neg_of_neg_of_pos (by linarith) hdx
      have : ⌊(lon - g.x0) / g.dx⌋ < 0 := Int.floor_lt.mpr (by exact_mod_cast hneg)
      omega
    · rintro ⟨-, -, -, hc1⟩
      have hle : (g.ncols : ℚ) ≤ (lon - g.x0) / g.dx := by
        rw [le_div_iff₀ hdx]; linarith
      have : (g.ncols : ℤ) ≤ ⌊(lon - g.x0) / g.dx⌋ :=
        Int.le_floor.mpr (by exact_mod_cast hle)
      omega
    · rintro ⟨hr0, -, -, -⟩
      have hneg : (g.y0 - lat) / g.dy < 0 := div_neg_of_neg_of_pos (by linarith) hdy
      have : ⌊(g.y0 - lat) / g.dy⌋ < 0 := Int.floor_lt.mpr (by exact_mod_cast hneg)
      omega
    · rintro ⟨-, hr1, -, -⟩
      have hle : (g.nrows : ℚ) ≤ (g.y0 - lat) / g.dy := by
        rw [le_div_iff₀ hdy]; linarith
      have : (g.nrows : ℤ) ≤ ⌊(g.y0 - lat) / g.dy⌋ :=
        Int.le_floor.mpr (by exact_mod_cast hle)
      omega
  have hs : sample_grid g lon lat = g.nodata := by
    unfold sample_grid
    rw [if_neg hcond]
  refine ⟨hs, ?_⟩
  rw [hs, hnd]
  rfl

/-- Witness for C8: a 2×2 unit grid at the origin sampled far east at
longitude 50 returns NoData, labelled `Sin Datos`. -/
theorem C8_out_of_extent_sin_datos_witness :
    sample_grid ⟨2, 2, 0, 0, 1, 1, fun _ _ => 1, 0⟩ 50 0 =
      (⟨2, 2, 0, 0, 1, 1, fun _ _ => 1, 0⟩ : GridN).nodata ∧
    mapa_amenaza (sample_grid ⟨2, 2, 0, 0, 1, 1, fun _ _ => 1, 0⟩ 50 0) =
      some "Sin Datos" :=
  C8_out_of_extent_sin_datos ⟨2, 2, 0, 0, 1, 1, fun _ _ => 1, 0⟩ 50 0
    (by norm_num) (by norm_num) rfl (Or.inr (Or.inl (by norm_num)))

lemma clampIdx_lt (z : ℤ) (n : ℕ) (hn : 1 ≤ n) :
    (min (max z 0) ((n : ℤ) - 1)).toNat < n := by omega

/-- C9: nearest-neighbour reprojection introduces no class value absent from
the source — every output cell equals some source cell's value — and the
output NoData sentinel equals the source's, unchanged. -/
theorem C9_nearest_preserves_class_values (src : GridN) (nrows ncols : ℕ)
    (x0 y0 dx dy : ℚ) (h1 : 1 ≤ src.nrows) (h2 : 1 ≤ src.ncols) (r c : ℕ) :
    (∃ i j, i < src.nrows ∧ j < src.ncols ∧
      (reproyectar_raster_wgs84 src nrows ncols x0 y0 dx dy).cells r c = src.cells i j) ∧
    (reproyectar_raster_wgs84 src nrows ncols x0 y0 dx dy).nodata = src.nodata :=
  ⟨⟨_, _, clampIdx_lt _ _ h1, clampIdx_lt _ _ h2, rfl⟩, rfl⟩

/-- Witness for C9: a 1×1 single-class grid reprojected onto a 2×2 geometry;
the output cell value comes from the only source cell and NoData carries
over. -/
theorem C9_nearest_preserves_class_values_witness :
    (∃ i j, i < (⟨1, 1, 0, 0, 1, 1, fun _ _ => 2, 0⟩ : GridN).nrows ∧
        j < (⟨1, 1, 0, 0, 1, 1, fun _ _ => 2, 0⟩ : GridN).ncols ∧
        (reproyectar_raster_wgs84 ⟨1, 1, 0, 0, 1, 1, fun _ _ => 2, 0⟩ 2 2 0 0
            (1 / 2) (1 / 2)).cells 0 0
          = (⟨1, 1, 0, 0, 1, 1, fun _ _ => 2, 0⟩ : GridN).cells i j) ∧
    (reproyectar_raster_wgs84 ⟨1, 1, 0, 0, 1, 1, fun _ _ => 2, 0⟩ 2 2 0 0
        (1 / 2) (1 / 2)).nodata
      = (⟨1, 1, 0, 0, 1, 1, fun _ _ => 2, 0⟩ : GridN).nodata :=
  C9_nearest_preserves_class_values ⟨1, 1, 0, 0, 1, 1, fun _ _ => 2, 0⟩ 2 2 0 0
    (1 / 2) (1 / 2) (by decide) (by decide) 0 0
